import Mathlib

/-!
Verification of the astronomical ephemeris engine (`AstronomicalCalculations`
and `Scene`) of the `moon` repository.

The JavaScript source is shallowly embedded here:

* `Vec3` models `THREE.Vector3` over the reals.  The only library method
  whose semantics matter for the claims is `normalize`, which in three.js is
  `divideScalar(this.length() || 1)`: a zero-length vector is divided by `1`
  and therefore stays the zero vector instead of producing NaN.
* Civil timestamps (`Instant`) model the UTC field view of a JavaScript
  `Date` (`getUTCFullYear`, 0-based `getUTCMonth`, `getUTCDate`,
  `getUTCHours`, `getUTCMinutes`, `getUTCSeconds`, `getUTCMilliseconds`).
  Arithmetic of `dateToJulianDay` is exact over `ℚ`; `Math.floor` of the
  integer quotients becomes `Int` division (`Int.ediv`, which is floor
  division for the positive divisors used by the algorithm).
* JavaScript's `%` operator (remainder, truncating the quotient toward
  zero) is modelled by `jsRem`.
-/

namespace Moon

/-- `THREE.Vector3`: an ordered triple of real numbers. -/
structure Vec3 where
  x : ℝ
  y : ℝ
  z : ℝ

namespace Vec3

/-- `THREE.Vector3.add` / `addVectors`. -/
def add (a b : Vec3) : Vec3 := ⟨a.x + b.x, a.y + b.y, a.z + b.z⟩

/-- `THREE.Vector3.sub` / `subVectors`. -/
def sub (a b : Vec3) : Vec3 := ⟨a.x - b.x, a.y - b.y, a.z - b.z⟩

/-- `THREE.Vector3.multiplyScalar`. -/
def smul (c : ℝ) (v : Vec3) : Vec3 := ⟨c * v.x, c * v.y, c * v.z⟩

/-- `THREE.Vector3.dot`. -/
def dot (a b : Vec3) : ℝ := a.x * b.x + a.y * b.y + a.z * b.z

/-- `THREE.Vector3.length`: `sqrt(x*x + y*y + z*z)`. -/
noncomputable def length (v : Vec3) : ℝ := Real.sqrt (dot v v)

/-- `THREE.Vector3.normalize`, which is `divideScalar(this.length() || 1)`:
division by the length, with the JavaScript `|| 1` guard replacing a zero
length by `1` (so the zero vector normalizes to itself, not to NaN). -/
noncomputable def normalize (v : Vec3) : Vec3 :=
  smul (1 / (if length v = 0 then 1 else length v)) v

/-- The zero vector `new THREE.Vector3(0, 0, 0)`. -/
def zero : Vec3 := ⟨0, 0, 0⟩

/-- Rotation about the x-axis: `applyMatrix4(new Matrix4().makeRotationX θ)`
on a vector (the rotation block of the matrix; no translation part). -/
noncomputable def rotX (θ : ℝ) (v : Vec3) : Vec3 :=
  ⟨v.x, Real.cos θ * v.y - Real.sin θ * v.z, Real.sin θ * v.y + Real.cos θ * v.z⟩

end Vec3

/-- Result record of `AstronomicalCalculations.calculateMoonPhase`. -/
structure MoonPhaseResult where
  name : String
  illumination : ℝ
  angle : ℝ

/-- Result record of `AstronomicalCalculations.calculateSolarAngles`. -/
structure SolarAngles where
  elevation : ℝ
  azimuth : ℝ

/-- Result record of `AstronomicalCalculations.checkEclipses`.  The source
stores the JavaScript booleans `solarEclipseDot > 0.99` / `lunarEclipseDot
> 0.99`; they are embedded as the corresponding propositions. -/
structure EclipseResult where
  solar : Prop
  lunar : Prop
  solarAlignment : ℝ
  lunarAlignment : ℝ

namespace AstronomicalCalculations

/-- `Math.atan2(y, x)` (total, piecewise, `atan2(0,0) = 0`). -/
noncomputable def atan2 (y x : ℝ) : ℝ :=
  if 0 < x then Real.arctan (y / x)
  else if x < 0 then
    (if 0 ≤ y then Real.arctan (y / x) + Real.pi else Real.arctan (y / x) - Real.pi)
  else
    (if 0 < y then Real.pi / 2 else if y < 0 then -(Real.pi / 2) else 0)

open Classical in
/-- `AstronomicalCalculations.calculateMoonPhase(sunPosition, earthPosition,
moonPosition)`: phase angle by `acos` of the dot product of the normalized
Earth→Sun and Earth→Moon vectors, illumination `(1 + cos(phaseAngle)) / 2`,
and the 45°-bucket phase name. -/
noncomputable def calculateMoonPhase (sunPosition earthPosition moonPosition : Vec3) :
    MoonPhaseResult :=
  let earthToSun := Vec3.normalize (Vec3.sub sunPosition earthPosition)
  let earthToMoon := Vec3.normalize (Vec3.sub moonPosition earthPosition)
  let phaseAngle := Real.arccos (Vec3.dot earthToSun earthToMoon)
  let phaseAngleDegrees := phaseAngle * 180 / Real.pi
  let illumination := (1 + Real.cos phaseAngle) / 2
  let phaseName :=
    if phaseAngleDegrees < 22.5 then "New Moon"
    else if phaseAngleDegrees < 67.5 then "Waxing Crescent"
    else if phaseAngleDegrees < 112.5 then "First Quarter"
    else if phaseAngleDegrees < 157.5 then "Waxing Gibbous"
    else if phaseAngleDegrees < 202.5 then "Full Moon"
    else if phaseAngleDegrees < 247.5 then "Waning Gibbous"
    else if phaseAngleDegrees < 292.5 then "Third Quarter"
    else if phaseAngleDegrees < 337.5 then "Waning Crescent"
    else "New Moon"
  { name := phaseName, illumination := illumination, angle := phaseAngleDegrees }

/-- `AstronomicalCalculations.checkEclipses(sunPosition, earthPosition,
moonPosition)`. -/
noncomputable def checkEclipses (sunPosition earthPosition moonPosition : Vec3) :
    EclipseResult :=
  let earthToSun := Vec3.normalize (Vec3.sub sunPosition earthPosition)
  let earthToMoon := Vec3.normalize (Vec3.sub moonPosition earthPosition)
  let moonToSun := Vec3.normalize (Vec3.sub sunPosition moonPosition)
  let moonToEarth := Vec3.normalize (Vec3.sub earthPosition moonPosition)
  let solarEclipseDot := Vec3.dot earthToSun earthToMoon
  let lunarEclipseDot := Vec3.dot moonToSun moonToEarth
  { solar := solarEclipseDot > 0.99
    lunar := lunarEclipseDot > 0.99
    solarAlignment := solarEclipseDot
    lunarAlignment := lunarEclipseDot }

/-- `AstronomicalCalculations.calculateSolarAngles(date, sunPosition,
viewerPosition)`; the `date` parameter is unused in the source and omitted. -/
noncomputable def calculateSolarAngles (sunPosition viewerPosition : Vec3) :
    SolarAngles :=
  let toSun := Vec3.normalize (Vec3.sub sunPosition viewerPosition)
  { elevation := Real.arcsin toSun.y * 180 / Real.pi
    azimuth := atan2 toSun.x toSun.z * 180 / Real.pi }

/-- The viewer-coordinate state of an `AstronomicalCalculations` instance
(the constructor initializes `viewerLatitude = 45.0`,
`viewerLongitude = 45.0`). -/
structure AstroConfig where
  viewerLatitude : ℝ
  viewerLongitude : ℝ

/-- The constructor's initial viewer coordinates. -/
def initialAstroConfig : AstroConfig := { viewerLatitude := 45.0, viewerLongitude := 45.0 }

/-- `AstronomicalCalculations.setViewerCoordinates(latitude, longitude)`:
assigns both fields directly. -/
def setViewerCoordinates (_st : AstroConfig) (latitude longitude : ℝ) : AstroConfig :=
  { viewerLatitude := latitude, viewerLongitude := longitude }

end AstronomicalCalculations

/-- The three coordinate systems accepted by `Scene.setCoordinateSystem`
(the valid members of `["geocentric", "heliocentric", "selenocentric"]`). -/
inductive Frame where
  | geocentric
  | heliocentric
  | selenocentric
deriving DecidableEq

/-- The three bodies of the system. -/
inductive Body where
  | earth
  | moon
  | sun
deriving DecidableEq

/-- The physical positions `state.positions` produced by
`calculateAstronomicalState` (the ephemeris fed to the frame projection). -/
structure EphemerisPositions where
  earth : Vec3
  moon : Vec3
  sun : Vec3

/-- The display positions computed by
`Scene.calculateCoordinateSystemPositions`. -/
structure ProjectedPositions where
  earth : Vec3
  moon : Vec3
  sun : Vec3

/-- Body selector on projected positions. -/
def ProjectedPositions.ofBody (p : ProjectedPositions) : Body → Vec3
  | Body.earth => p.earth
  | Body.moon => p.moon
  | Body.sun => p.sun

/-- The anchor body placed at the origin of each frame. -/
def anchorBody : Frame → Body
  | Frame.geocentric => Body.earth
  | Frame.heliocentric => Body.sun
  | Frame.selenocentric => Body.moon

namespace Scene

/-- `THREE.MathUtils.degToRad`. -/
noncomputable def degToRad (d : ℝ) : ℝ := d * Real.pi / 180

/-- `Scene.calculateCoordinateSystemPositions(state)`, as a function of the
active coordinate system and the physical ephemeris positions.  Each case
places the frame's anchor at `(0,0,0)` and the other bodies at fixed display
distances along the normalized physical directions; the heliocentric case
additionally rotates the Earth→Moon offset by the 5.14° orbital inclination
about the x-axis (`makeRotationX` / `applyMatrix4`). -/
noncomputable def calculateCoordinateSystemPositions (frame : Frame)
    (state : EphemerisPositions) : ProjectedPositions :=
  match frame with
  | Frame.geocentric =>
    let earth' := Vec3.zero
    let earthToMoon := Vec3.smul 30 (Vec3.normalize (Vec3.sub state.moon state.earth))
    let moon' := Vec3.add earth' earthToMoon
    let earthToSun := Vec3.smul 80 (Vec3.normalize (Vec3.sub state.sun state.earth))
    let sun' := Vec3.add earth' earthToSun
    { earth := earth', moon := moon', sun := sun' }
  | Frame.heliocentric =>
    let sun' := Vec3.zero
    let sunToEarth := Vec3.smul 60 (Vec3.normalize (Vec3.sub state.earth state.sun))
    let earth' := Vec3.add sun' sunToEarth
    let earthToMoonHelio := Vec3.smul 15 (Vec3.normalize (Vec3.sub state.moon state.earth))
    let inclination := degToRad 5.14
    let moon' := Vec3.add earth' (Vec3.rotX inclination earthToMoonHelio)
    { earth := earth', moon := moon', sun := sun' }
  | Frame.selenocentric =>
    let moon' := Vec3.zero
    let moonToEarth := Vec3.smul 25 (Vec3.normalize (Vec3.sub state.earth state.moon))
    let earth' := Vec3.add moon' moonToEarth
    let moonToSun := Vec3.smul 80 (Vec3.normalize (Vec3.sub state.sun state.moon))
    let sun' := Vec3.add moon' moonToSun
    { earth := earth', moon := moon', sun := sun' }

/-- `Scene.updateCameraTarget(positions)`: the camera target is copied from
the projected position of the active frame's anchor body. -/
def updateCameraTarget (frame : Frame) (positions : ProjectedPositions) : Vec3 :=
  match frame with
  | Frame.geocentric => positions.earth
  | Frame.heliocentric => positions.sun
  | Frame.selenocentric => positions.moon

/-- The `Scene` state relevant to frame switching: the active coordinate
system, the physical ephemeris of the current time, the camera target and
the camera distance limits. -/
structure SceneState where
  coordinateSystem : Frame
  positions : EphemerisPositions
  cameraTarget : Vec3
  cameraDistance : ℝ
  minCameraDistance : ℝ
  maxCameraDistance : ℝ

/-- The camera-target part of `Scene.updateAstronomicalState(time)` for a
fixed physical ephemeris: recompute the projected positions in the active
frame and retarget the camera. -/
noncomputable def updateAstronomicalState (st : SceneState) : SceneState :=
  let positions := calculateCoordinateSystemPositions st.coordinateSystem st.positions
  { st with cameraTarget := updateCameraTarget st.coordinateSystem positions }

/-- `Scene.setCoordinateSystem(system)` for a valid system: switch the active
frame, adjust the camera distance limits, and recalculate positions (which
re-targets the camera) with the unchanged ephemeris. -/
noncomputable def setCoordinateSystem (st : SceneState) (system : Frame) : SceneState :=
  let st1 :=
    match system with
    | Frame.geocentric =>
      { st with coordinateSystem := system, minCameraDistance := 20,
                maxCameraDistance := 200, cameraDistance := min st.cameraDistance 150 }
    | Frame.heliocentric =>
      { st with coordinateSystem := system, minCameraDistance := 30,
                maxCameraDistance := 300, cameraDistance := max st.cameraDistance 120 }
    | Frame.selenocentric =>
      { st with coordinateSystem := system, minCameraDistance := 15,
                maxCameraDistance := 150, cameraDistance := min st.cameraDistance 80 }
  updateAstronomicalState st1

end Scene

/-- A concrete physical ephemeris used as a test input: distinct positions
for the three bodies. -/
def sampleEphemeris : EphemerisPositions :=
  { earth := ⟨0, 0, 0⟩, moon := ⟨0, 0, 50⟩, sun := ⟨300, 0, 0⟩ }

/-- A concrete `Scene` state used as a test input: geocentric frame with the
constructor's camera defaults and `sampleEphemeris` as ephemeris. -/
def sampleScene : Scene.SceneState :=
  { coordinateSystem := Frame.geocentric, positions := sampleEphemeris,
    cameraTarget := ⟨0, 0, 0⟩, cameraDistance := 80,
    minCameraDistance := 20, maxCameraDistance := 200 }

/-- The UTC field view of a JavaScript `Date`: `month` is 0-based
(`getUTCMonth`), `day` is the 1-based day of month (`getUTCDate`), and `ms`
is `getUTCMilliseconds` (read by no function of the source). -/
structure Instant where
  year : ℤ
  month : ℤ
  day : ℤ
  hour : ℤ
  minute : ℤ
  second : ℤ
  ms : ℤ
deriving DecidableEq

namespace Instant

/-- Gregorian leap-year rule (what a JavaScript `Date` realizes for the
length of February). -/
def isLeapYear (y : ℤ) : Prop := (y % 4 = 0 ∧ y % 100 ≠ 0) ∨ y % 400 = 0

instance (y : ℤ) : Decidable (isLeapYear y) := by unfold isLeapYear; infer_instance

/-- Length of the 1-based month `m1` of `year` in the Gregorian calendar. -/
def daysInMonth (year m1 : ℤ) : ℤ :=
  if m1 = 2 then (if isLeapYear year then 29 else 28)
  else if m1 = 4 ∨ m1 = 6 ∨ m1 = 9 ∨ m1 = 11 then 30 else 31

/-- The field combinations an actual `Date` can report: a valid Gregorian
calendar date with a valid time of day. -/
def Valid (t : Instant) : Prop :=
  0 ≤ t.month ∧ t.month ≤ 11 ∧
  1 ≤ t.day ∧ t.day ≤ daysInMonth t.year (t.month + 1) ∧
  0 ≤ t.hour ∧ t.hour ≤ 23 ∧
  0 ≤ t.minute ∧ t.minute ≤ 59 ∧
  0 ≤ t.second ∧ t.second ≤ 59 ∧
  0 ≤ t.ms ∧ t.ms ≤ 999

instance (t : Instant) : Decidable (Valid t) := by unfold Valid; infer_instance

/-- Chronological (lexicographic) strict order on the civil fields,
millisecond resolution included. -/
def civilBefore (t1 t2 : Instant) : Prop :=
  t1.year < t2.year ∨ (t1.year = t2.year ∧
    (t1.month < t2.month ∨ (t1.month = t2.month ∧
      (t1.day < t2.day ∨ (t1.day = t2.day ∧
        (t1.hour < t2.hour ∨ (t1.hour = t2.hour ∧
          (t1.minute < t2.minute ∨ (t1.minute = t2.minute ∧
            (t1.second < t2.second ∨ (t1.second = t2.second ∧
              t1.ms < t2.ms)))))))))))

instance (t1 t2 : Instant) : Decidable (civilBefore t1 t2) := by
  unfold civilBefore; infer_instance

/-- Strict order at whole-second resolution: the two instants differ in
some field at or above the seconds field (the resolution actually read by
`dateToJulianDay`). -/
def secBefore (t1 t2 : Instant) : Prop :=
  t1.year < t2.year ∨ (t1.year = t2.year ∧
    (t1.month < t2.month ∨ (t1.month = t2.month ∧
      (t1.day < t2.day ∨ (t1.day = t2.day ∧
        (t1.hour < t2.hour ∨ (t1.hour = t2.hour ∧
          (t1.minute < t2.minute ∨ (t1.minute = t2.minute ∧
            t1.second < t2.second)))))))))

instance (t1 t2 : Instant) : Decidable (secBefore t1 t2) := by
  unfold secBefore; infer_instance

/-- Strict order on the calendar date fields only. -/
def dateBefore (t1 t2 : Instant) : Prop :=
  t1.year < t2.year ∨ (t1.year = t2.year ∧
    (t1.month < t2.month ∨ (t1.month = t2.month ∧ t1.day < t2.day)))

end Instant

namespace AstronomicalCalculations

open Instant

/-- The intermediate `a` of `dateToJulianDay`:
`Math.floor((14 - (date.getUTCMonth() + 1)) / 12)`.  The ℤ division `/` is
`Int.ediv`, which agrees with `Math.floor` of the quotient for the positive
divisors used here. -/
def shiftA (t : Instant) : ℤ := (14 - (t.month + 1)) / 12

/-- The intermediate `y` of `dateToJulianDay`. -/
def shiftY (t : Instant) : ℤ := t.year + 4800 - shiftA t

/-- The intermediate `m` of `dateToJulianDay`. -/
def shiftM (t : Instant) : ℤ := (t.month + 1) + 12 * shiftA t - 3

/-- The integer (whole-day) part of `dateToJulianDay`. -/
def jdnInt (t : Instant) : ℤ :=
  t.day + (153 * shiftM t + 2) / 5 + 365 * shiftY t +
    shiftY t / 4 - shiftY t / 100 + shiftY t / 400 - 32045

/-- The fractional time-of-day part of `dateToJulianDay`:
`(hours - 12)/24 + minutes/1440 + seconds/86400`.  Milliseconds are not
read by the source. -/
def timeFrac (t : Instant) : ℚ :=
  ((t.hour : ℚ) - 12) / 24 + (t.minute : ℚ) / 1440 + (t.second : ℚ) / 86400

/-- `AstronomicalCalculations.dateToJulianDay(date)`, exactly over `ℚ`. -/
def dateToJulianDay (t : Instant) : ℚ := (jdnInt t : ℚ) + timeFrac t

/-- `this.J2000 = new Date('2000-01-01T12:00:00Z')`. -/
def J2000 : Instant := ⟨2000, 0, 1, 12, 0, 0, 0⟩

/-- `AstronomicalCalculations.daysSinceJ2000(date)`. -/
def daysSinceJ2000 (t : Instant) : ℚ := dateToJulianDay t - dateToJulianDay J2000

/-- Truncation toward zero, as JavaScript division-based remainder uses. -/
def qtrunc (x : ℚ) : ℤ := if 0 ≤ x then ⌊x⌋ else ⌈x⌉

/-- The JavaScript `%` operator on numbers: `a % n = a - n * trunc(a / n)`
(remainder taking the sign of the dividend). -/
def jsRem (a n : ℚ) : ℚ := a - n * (qtrunc (a / n) : ℚ)

/-- The `gmst` intermediate of `calculateEarthRotation`:
`(18.697374558 + 24.06570982441908 * days) % 24`, exactly over `ℚ`. -/
def gmst (t : Instant) : ℚ :=
  jsRem (18.697374558 + 24.06570982441908 * daysSinceJ2000 t) 24

/-- `AstronomicalCalculations.calculateEarthRotation(date)`:
`(gmst * 15) * Math.PI / 180` radians. -/
noncomputable def calculateEarthRotation (t : Instant) : ℝ :=
  ((gmst t * 15 : ℚ) : ℝ) * Real.pi / 180

end AstronomicalCalculations


/-! ### Helper lemmas about the `THREE.Vector3` embedding -/

namespace Vec3

theorem dot_self_nonneg (v : Vec3) : 0 ≤ dot v v := by
  unfold dot
  have hx := mul_self_nonneg v.x
  have hy := mul_self_nonneg v.y
  have hz := mul_self_nonneg v.z
  linarith

theorem length_nonneg (v : Vec3) : 0 ≤ length v := Real.sqrt_nonneg _

theorem length_eq_zero_iff (v : Vec3) : length v = 0 ↔ v = zero := by
  constructor
  · intro h
    have hnn := dot_self_nonneg v
    have hle : dot v v ≤ 0 := (Real.sqrt_eq_zero').1 h
    have hdz : dot v v = 0 := le_antisymm hle hnn
    unfold dot at hdz
    have hx := mul_self_nonneg v.x
    have hy := mul_self_nonneg v.y
    have hz := mul_self_nonneg v.z
    have hx0 : v.x * v.x = 0 := by linarith
    have hy0 : v.y * v.y = 0 := by linarith
    have hz0 : v.z * v.z = 0 := by linarith
    cases v
    simp only [zero, mk.injEq]
    exact ⟨mul_self_eq_zero.1 hx0, mul_self_eq_zero.1 hy0, mul_self_eq_zero.1 hz0⟩
  · intro h
    subst h
    unfold length dot zero
    norm_num

theorem length_pos_of_ne_zero {v : Vec3} (h : v ≠ zero) : 0 < length v := by
  rcases lt_or_eq_of_le (length_nonneg v) with hlt | heq
  · exact hlt
  · exact absurd ((length_eq_zero_iff v).1 heq.symm) h

theorem normalize_of_ne_zero {v : Vec3} (h : v ≠ zero) :
    normalize v = smul (1 / length v) v := by
  unfold normalize
  rw [if_neg (fun h0 => h ((length_eq_zero_iff v).1 h0))]

theorem length_smul (c : ℝ) (v : Vec3) : length (smul c v) = |c| * length v := by
  unfold length smul dot
  have harg : c * v.x * (c * v.x) + c * v.y * (c * v.y) + c * v.z * (c * v.z)
      = c ^ 2 * (v.x * v.x + v.y * v.y + v.z * v.z) := by ring
  simp only
  rw [harg, Real.sqrt_mul (sq_nonneg c), Real.sqrt_sq_eq_abs]

theorem length_normalize {v : Vec3} (h : v ≠ zero) : length (normalize v) = 1 := by
  rw [normalize_of_ne_zero h, length_smul]
  have hpos := length_pos_of_ne_zero h
  rw [abs_of_pos (by positivity)]
  field_simp

theorem length_smul_normalize {v : Vec3} (h : v ≠ zero) (k : ℝ) :
    length (smul k (normalize v)) = |k| := by
  rw [length_smul, length_normalize h, mul_one]

theorem ne_zero_of_length_ne_zero {v : Vec3} (h : length v ≠ 0) : v ≠ zero :=
  fun hv => h ((length_eq_zero_iff v).2 hv)

theorem zero_add_vec (v : Vec3) : add zero v = v := by
  cases v
  simp [add, zero]

theorem sub_ne_zero_of_ne {a b : Vec3} (h : a ≠ b) : sub a b ≠ zero := by
  intro hs
  apply h
  unfold sub zero at hs
  cases a
  cases b
  simp only [mk.injEq] at hs ⊢
  obtain ⟨hx, hy, hz⟩ := hs
  exact ⟨by linarith, by linarith, by linarith⟩

theorem length_eq_of_add_eq_zero {a b : Vec3} (h : add a b = zero) :
    length a = length b := by
  unfold add zero at h
  obtain ⟨ax, ay, az⟩ := a
  obtain ⟨bx, by', bz⟩ := b
  simp only [mk.injEq] at h
  obtain ⟨hx, hy, hz⟩ := h
  unfold length dot
  simp only
  congr 1
  linear_combination (ax - bx) * hx + (ay - by') * hy + (az - bz) * hz

theorem length_rotX (θ : ℝ) (v : Vec3) : length (rotX θ v) = length v := by
  unfold length rotX dot
  simp only
  congr 1
  have hsc := Real.sin_sq_add_cos_sq θ
  nlinarith [hsc]

theorem normalize_of_length_one {v : Vec3} (h : length v = 1) : normalize v = v := by
  have hne : v ≠ zero := ne_zero_of_length_ne_zero (by rw [h]; norm_num)
  rw [normalize_of_ne_zero hne, h]
  cases v
  simp [smul]

end Vec3


/-! ### General helper lemmas -/

open AstronomicalCalculations Instant

theorem sub_zero_vec (v : Vec3) : Vec3.sub v ⟨0, 0, 0⟩ = v := by
  cases v
  simp [Vec3.sub]

theorem length_unit_x : Vec3.length ⟨1, 0, 0⟩ = 1 := by
  unfold Vec3.length Vec3.dot
  norm_num

theorem length_neg_unit_x : Vec3.length ⟨-1, 0, 0⟩ = 1 := by
  unfold Vec3.length Vec3.dot
  norm_num

theorem normalize_300 : Vec3.normalize ⟨300, 0, 0⟩ = ⟨1, 0, 0⟩ := by
  have hlen : Vec3.length ⟨300, 0, 0⟩ = 300 := by
    unfold Vec3.length Vec3.dot
    simp only
    rw [show (300:ℝ) * 300 + 0 * 0 + 0 * 0 = 300 ^ 2 by ring, Real.sqrt_sq (by norm_num)]
  have hne : (⟨300, 0, 0⟩ : Vec3) ≠ Vec3.zero := by
    intro h
    have hx := congrArg Vec3.x h
    simp [Vec3.zero] at hx
  rw [Vec3.normalize_of_ne_zero hne, hlen]
  simp [Vec3.smul]

theorem scaled_normalize_ne_zero (k : ℝ) (hk : k ≠ 0) {v : Vec3} (hv : v ≠ Vec3.zero) :
    Vec3.smul k (Vec3.normalize v) ≠ Vec3.zero := by
  intro h
  have hl := Vec3.length_smul_normalize hv k
  rw [h, (Vec3.length_eq_zero_iff _).2 rfl] at hl
  exact hk (abs_eq_zero.1 hl.symm)

theorem jsRem24_bounds (x : ℚ) (hx : 0 ≤ x) : 0 ≤ jsRem x 24 ∧ jsRem x 24 < 24 := by
  unfold jsRem qtrunc
  have hq : (0:ℚ) ≤ x / 24 := by positivity
  rw [if_pos hq]
  have h1 : (⌊x / 24⌋ : ℚ) ≤ x / 24 := Int.floor_le _
  have h2 : x / 24 < (⌊x / 24⌋ : ℚ) + 1 := Int.lt_floor_add_one _
  constructor <;> nlinarith

/-! ### Calendar lemmas for the Julian Day Number formula -/

namespace AstronomicalCalculations

/-- Cumulative-day part `floor((153 m + 2) / 5)` of the Julian Day Number
formula, as a function of the shifted month. -/
def f153 (m : ℤ) : ℤ := (153 * m + 2) / 5

/-- Year part `365 y + floor(y/4) - floor(y/100) + floor(y/400)` of the
Julian Day Number formula, as a function of the shifted year. -/
def G (y : ℤ) : ℤ := 365 * y + y / 4 - y / 100 + y / 400

/-- Leap-day contribution of the (shifted) year `z`. -/
def leapCount (z : ℤ) : ℤ :=
  (if z % 4 = 0 then 1 else 0) - (if z % 100 = 0 then 1 else 0) + (if z % 400 = 0 then 1 else 0)

theorem leapCount_nonneg (z : ℤ) : 0 ≤ leapCount z := by
  unfold leapCount
  split_ifs <;> omega

theorem G_succ (y : ℤ) : G (y + 1) = G y + 365 + leapCount (y + 1) := by
  unfold G leapCount
  split_ifs <;> omega

theorem G_le {y1 y2 : ℤ} (h : y1 ≤ y2) : G y1 ≤ G y2 := by
  refine Int.le_induction (P := fun n => G y1 ≤ G n) ?_ ?_ y2 h
  · exact le_refl _
  · intro n hn ih
    have hs := G_succ n
    have hl := leapCount_nonneg (n + 1)
    omega

theorem f153_mono {m1 m2 : ℤ} (h : m1 ≤ m2) : f153 m1 ≤ f153 m2 :=
  Int.ediv_le_ediv (by norm_num) (by omega)

theorem f153_nonneg {m : ℤ} (h : 0 ≤ m) : 0 ≤ f153 m := by
  have h0 : f153 0 = 0 := by decide
  have := f153_mono h
  omega

theorem jdn_decomp (t : Instant) :
    jdnInt t = t.day + f153 (shiftM t) + G (shiftY t) - 32045 := by
  unfold jdnInt f153 G
  ring

/-- Strict growth of the whole-day count over lexicographically ordered
shifted calendar triples. -/
theorem jdn_core (y1 m1 d1 y2 m2 d2 : ℤ)
    (hm1a : 0 ≤ m1) (hm1b : m1 ≤ 11) (hd1 : 1 ≤ d1)
    (htop1 : m1 ≤ 10 → d1 + f153 m1 ≤ f153 (m1 + 1))
    (hfeb1 : m1 = 11 → d1 ≤ 28 + leapCount (y1 + 1))
    (hm2a : 0 ≤ m2) (hm2b : m2 ≤ 11) (hd2 : 1 ≤ d2)
    (hlex : y1 < y2 ∨ (y1 = y2 ∧ (m1 < m2 ∨ (m1 = m2 ∧ d1 < d2)))) :
    d1 + f153 m1 + G y1 < d2 + f153 m2 + G y2 := by
  have hf2 : 0 ≤ f153 m2 := f153_nonneg hm2a
  have h337 : f153 11 = 337 := by decide
  rcases hlex with hy | ⟨hy, hm | ⟨hm, hd⟩⟩
  · have hbound : d1 + f153 m1 ≤ 365 + leapCount (y1 + 1) := by
      by_cases hfe : m1 = 11
      · have hb := hfeb1 hfe
        rw [hfe] at *
        omega
      · have hm10 : m1 ≤ 10 := by omega
        have ht := htop1 hm10
        have hmon : f153 (m1 + 1) ≤ f153 11 := f153_mono (by omega)
        have hl := leapCount_nonneg (y1 + 1)
        omega
    have hGs := G_succ y1
    have hG : G (y1 + 1) ≤ G y2 := G_le (by omega)
    omega
  · subst hy
    have hm10 : m1 ≤ 10 := by omega
    have ht := htop1 hm10
    have hmon : f153 (m1 + 1) ≤ f153 m2 := f153_mono (by omega)
    omega
  · subst hy
    subst hm
    omega

/-- For a valid instant the shifted month/day satisfy the bounds the strict
growth lemma needs: the day never exceeds the span to the next month of the
shifted calendar (February, shifted month 11, is bounded by `28 +
leapCount`). -/
theorem shift_facts (t : Instant) (hv : Valid t) :
    0 ≤ shiftM t ∧ shiftM t ≤ 11 ∧ 1 ≤ t.day ∧
    (shiftM t ≤ 10 → t.day + f153 (shiftM t) ≤ f153 (shiftM t + 1)) ∧
    (shiftM t = 11 → t.day ≤ 28 + leapCount (shiftY t + 1)) := by
  obtain ⟨hm0, hm11, hd1, hdm, -, -, -, -, -, -, -, -⟩ := hv
  unfold daysInMonth at hdm
  unfold shiftM shiftY shiftA f153
  set mo := t.month with hmo
  interval_cases mo
  · -- January
    norm_num at hdm
    refine ⟨by omega, by omega, hd1, fun _ => by omega, fun h => absurd h (by omega)⟩
  · -- February
    norm_num at hdm
    refine ⟨by omega, by omega, hd1, fun h => absurd h (by omega), fun _ => ?_⟩
    unfold leapCount
    by_cases hL : isLeapYear t.year
    · rw [if_pos hL] at hdm
      unfold isLeapYear at hL
      rcases hL with ⟨h4, h100⟩ | h400 <;> (split_ifs <;> omega)
    · rw [if_neg hL] at hdm
      unfold isLeapYear at hL
      push_neg at hL
      split_ifs <;> omega
  · -- March
    norm_num at hdm
    refine ⟨by omega, by omega, hd1, fun _ => by omega, fun h => absurd h (by omega)⟩
  · norm_num at hdm
    refine ⟨by omega, by omega, hd1, fun _ => by omega, fun h => absurd h (by omega)⟩
  · norm_num at hdm
    refine ⟨by omega, by omega, hd1, fun _ => by omega, fun h => absurd h (by omega)⟩
  · norm_num at hdm
    refine ⟨by omega, by omega, hd1, fun _ => by omega, fun h => absurd h (by omega)⟩
  · norm_num at hdm
    refine ⟨by omega, by omega, hd1, fun _ => by omega, fun h => absurd h (by omega)⟩
  · norm_num at hdm
    refine ⟨by omega, by omega, hd1, fun _ => by omega, fun h => absurd h (by omega)⟩
  · norm_num at hdm
    refine ⟨by omega, by omega, hd1, fun _ => by omega, fun h => absurd h (by omega)⟩
  · norm_num at hdm
    refine ⟨by omega, by omega, hd1, fun _ => by omega, fun h => absurd h (by omega)⟩
  · norm_num at hdm
    refine ⟨by omega, by omega, hd1, fun _ => by omega, fun h => absurd h (by omega)⟩
  · norm_num at hdm
    refine ⟨by omega, by omega, hd1, fun _ => by omega, fun h => absurd h (by omega)⟩

theorem jdn_lt_of_dateBefore (t1 t2 : Instant) (h1 : Valid t1) (h2 : Valid t2)
    (h : dateBefore t1 t2) : jdnInt t1 < jdnInt t2 := by
  obtain ⟨ha1, hb1, hc1, hd1, he1⟩ := shift_facts t1 h1
  obtain ⟨ha2, hb2, hc2, hd2, he2⟩ := shift_facts t2 h2
  have hlex : shiftY t1 < shiftY t2 ∨ (shiftY t1 = shiftY t2 ∧
      (shiftM t1 < shiftM t2 ∨ (shiftM t1 = shiftM t2 ∧ t1.day < t2.day))) := by
    obtain ⟨hm01, hm111, -⟩ := h1
    obtain ⟨hm02, hm112, -⟩ := h2
    unfold dateBefore at h
    unfold shiftY shiftM shiftA
    omega
  rw [jdn_decomp t1, jdn_decomp t2]
  have := jdn_core (shiftY t1) (shiftM t1) t1.day (shiftY t2) (shiftM t2) t2.day
    ha1 hb1 hc1 hd1 he1 ha2 hb2 hc2 hlex
  omega

theorem timeFrac_bounds (t : Instant) (hv : Valid t) :
    -(1/2) ≤ timeFrac t ∧ timeFrac t ≤ 1/2 - 1/86400 := by
  obtain ⟨-, -, -, -, hh0, hh1, hm0, hm1, hs0, hs1, -, -⟩ := hv
  unfold timeFrac
  have c1 : (0:ℚ) ≤ t.hour := by exact_mod_cast hh0
  have c2 : (t.hour : ℚ) ≤ 23 := by exact_mod_cast hh1
  have c3 : (0:ℚ) ≤ t.minute := by exact_mod_cast hm0
  have c4 : (t.minute : ℚ) ≤ 59 := by exact_mod_cast hm1
  have c5 : (0:ℚ) ≤ t.second := by exact_mod_cast hs0
  have c6 : (t.second : ℚ) ≤ 59 := by exact_mod_cast hs1
  constructor <;> linarith

theorem jdnInt_1999_06_01 : jdnInt ⟨1999, 5, 1, 0, 0, 0, 0⟩ = 2451331 := by decide

theorem jdnInt_J2000 : jdnInt J2000 = 2451545 := by decide

theorem daysSinceJ2000_1999_06_01 : daysSinceJ2000 ⟨1999, 5, 1, 0, 0, 0, 0⟩ = -429/2 := by
  unfold daysSinceJ2000 dateToJulianDay timeFrac
  rw [jdnInt_1999_06_01, jdnInt_J2000]
  norm_num [J2000]

theorem gmst_1999_06_01_neg : gmst ⟨1999, 5, 1, 0, 0, 0, 0⟩ < 0 := by
  unfold gmst
  rw [daysSinceJ2000_1999_06_01]
  unfold jsRem qtrunc
  set x : ℚ := 18.697374558 + 24.06570982441908 * (-429/2) with hxdef
  have hx1 : x < -5143 := by rw [hxdef]; norm_num
  have hx2 : (-5160 : ℚ) < x := by rw [hxdef]; norm_num
  have hneg : ¬ ((0:ℚ) ≤ x / 24) := by
    intro h
    nlinarith
  rw [if_neg hneg]
  have hceil : ⌈x / 24⌉ = -214 := by
    rw [Int.ceil_eq_iff]
    constructor
    · push_cast
      nlinarith
    · push_cast
      nlinarith
  rw [hceil]
  push_cast
  nlinarith

end AstronomicalCalculations


/-! ### Claim theorems -/

open Scene

/-- Claim C1 (the code contradicts it): at phase angle 180° the code names
the phase "Full Moon" but returns illumination `0`, and at phase angle 0° it
names the phase "New Moon" but returns illumination `1` — the opposite of
the claimed (and physically correct) illumination values, because the source
computes `(1 + cos θ)/2` instead of `(1 - cos θ)/2`. -/
theorem calculateMoonPhase_cardinal_illumination_flipped :
    ((calculateMoonPhase ⟨1, 0, 0⟩ ⟨0, 0, 0⟩ ⟨-1, 0, 0⟩).angle = 180 ∧
     (calculateMoonPhase ⟨1, 0, 0⟩ ⟨0, 0, 0⟩ ⟨-1, 0, 0⟩).name = "Full Moon" ∧
     (calculateMoonPhase ⟨1, 0, 0⟩ ⟨0, 0, 0⟩ ⟨-1, 0, 0⟩).illumination = 0) ∧
    ((calculateMoonPhase ⟨1, 0, 0⟩ ⟨0, 0, 0⟩ ⟨1, 0, 0⟩).angle = 0 ∧
     (calculateMoonPhase ⟨1, 0, 0⟩ ⟨0, 0, 0⟩ ⟨1, 0, 0⟩).name = "New Moon" ∧
     (calculateMoonPhase ⟨1, 0, 0⟩ ⟨0, 0, 0⟩ ⟨1, 0, 0⟩).illumination = 1) := by
  have h1 : Vec3.normalize ⟨1, 0, 0⟩ = ⟨1, 0, 0⟩ := Vec3.normalize_of_length_one length_unit_x
  have h2 : Vec3.normalize ⟨-1, 0, 0⟩ = ⟨-1, 0, 0⟩ :=
    Vec3.normalize_of_length_one length_neg_unit_x
  have hdot1 : Vec3.dot ⟨1, 0, 0⟩ ⟨-1, 0, 0⟩ = -1 := by unfold Vec3.dot; norm_num
  have hdot2 : Vec3.dot ⟨1, 0, 0⟩ ⟨1, 0, 0⟩ = 1 := by unfold Vec3.dot; norm_num
  have hdeg : Real.pi * 180 / Real.pi = 180 := by field_simp
  constructor
  · simp only [calculateMoonPhase, sub_zero_vec, h1, h2, hdot1, Real.arccos_neg_one, hdeg,
      Real.cos_pi]
    norm_num
  · simp only [calculateMoonPhase, sub_zero_vec, h1, hdot2, Real.arccos_one, Real.cos_zero]
    norm_num

/-- Claim C2 (confirmed): for every input triple the phase angle returned by
`calculateMoonPhase` lies in `[0, 180]` degrees (it comes from `acos`), so
the returned name is always one of the five non-waning names; the three
waning names are unreachable. -/
theorem calculateMoonPhase_angle_range_and_names (s e m : Vec3) :
    (calculateMoonPhase s e m).angle ∈ Set.Icc (0:ℝ) 180 ∧
    (calculateMoonPhase s e m).name ∈
      ({"New Moon", "Waxing Crescent", "First Quarter", "Waxing Gibbous", "Full Moon"} :
        Set String) := by
  set d := Vec3.dot (Vec3.normalize (Vec3.sub s e)) (Vec3.normalize (Vec3.sub m e)) with hd
  have h0 : 0 ≤ Real.arccos d := Real.arccos_nonneg d
  have hpi : Real.arccos d ≤ Real.pi := Real.arccos_le_pi d
  have hangle : (calculateMoonPhase s e m).angle = Real.arccos d * 180 / Real.pi := by
    simp only [calculateMoonPhase]
  have hlow : 0 ≤ Real.arccos d * 180 / Real.pi :=
    div_nonneg (mul_nonneg h0 (by norm_num)) (le_of_lt Real.pi_pos)
  have hhigh : Real.arccos d * 180 / Real.pi ≤ 180 := by
    rw [div_le_iff₀ Real.pi_pos]
    nlinarith [Real.pi_pos]
  constructor
  · rw [hangle]
    exact ⟨hlow, hhigh⟩
  · have hname : (calculateMoonPhase s e m).name =
        (if Real.arccos d * 180 / Real.pi < 22.5 then "New Moon"
        else if Real.arccos d * 180 / Real.pi < 67.5 then "Waxing Crescent"
        else if Real.arccos d * 180 / Real.pi < 112.5 then "First Quarter"
        else if Real.arccos d * 180 / Real.pi < 157.5 then "Waxing Gibbous"
        else if Real.arccos d * 180 / Real.pi < 202.5 then "Full Moon"
        else if Real.arccos d * 180 / Real.pi < 247.5 then "Waning Gibbous"
        else if Real.arccos d * 180 / Real.pi < 292.5 then "Third Quarter"
        else if Real.arccos d * 180 / Real.pi < 337.5 then "Waning Crescent"
        else "New Moon") := by
      simp only [calculateMoonPhase]
    rw [hname]
    split_ifs <;> first
      | (exfalso; linarith)
      | simp

/-- Claim C3, counterexample: two valid instants half a second apart (equal
down to the seconds field, different milliseconds) are strictly ordered in
civil time but receive the same Julian Day, because `dateToJulianDay` never
reads milliseconds — strict monotonicity at millisecond resolution fails. -/
theorem dateToJulianDay_ignores_milliseconds :
    Valid (⟨2000, 0, 1, 12, 0, 0, 0⟩ : Instant) ∧
    Valid (⟨2000, 0, 1, 12, 0, 0, 500⟩ : Instant) ∧
    civilBefore ⟨2000, 0, 1, 12, 0, 0, 0⟩ ⟨2000, 0, 1, 12, 0, 0, 500⟩ ∧
    ¬ (dateToJulianDay ⟨2000, 0, 1, 12, 0, 0, 0⟩ <
        dateToJulianDay ⟨2000, 0, 1, 12, 0, 0, 500⟩) := by
  refine ⟨by decide, by decide, by decide, ?_⟩
  have heq : dateToJulianDay (⟨2000, 0, 1, 12, 0, 0, 0⟩ : Instant) =
      dateToJulianDay ⟨2000, 0, 1, 12, 0, 0, 500⟩ := rfl
  rw [heq]
  exact lt_irrefl _

/-- Claim C3 (amended): for valid instants that differ at or above
whole-second resolution, `dateToJulianDay` is strictly monotonically
increasing in civil time. -/
theorem dateToJulianDay_strictMono_of_secBefore (t1 t2 : Instant)
    (h1 : Valid t1) (h2 : Valid t2) (h : secBefore t1 t2) :
    dateToJulianDay t1 < dateToJulianDay t2 := by
  have hf1 := timeFrac_bounds t1 h1
  have hf2 := timeFrac_bounds t2 h2
  by_cases hdate : dateBefore t1 t2
  · have hj := jdn_lt_of_dateBefore t1 t2 h1 h2 hdate
    unfold dateToJulianDay
    have hjq : (jdnInt t1 : ℚ) + 1 ≤ (jdnInt t2 : ℚ) := by exact_mod_cast hj
    linarith
  · have hsame : t1.year = t2.year ∧ t1.month = t2.month ∧ t1.day = t2.day := by
      unfold secBefore at h
      unfold dateBefore at hdate
      omega
    have hjeq : jdnInt t1 = jdnInt t2 := by
      unfold jdnInt shiftM shiftY shiftA
      rw [hsame.1, hsame.2.1, hsame.2.2]
    have htl : 3600 * t1.hour + 60 * t1.minute + t1.second <
        3600 * t2.hour + 60 * t2.minute + t2.second := by
      obtain ⟨-, -, -, -, hh0, hh1, hm0, hm1, hs0, hs1, -, -⟩ := h1
      obtain ⟨-, -, -, -, gh0, gh1, gm0, gm1, gs0, gs1, -, -⟩ := h2
      unfold secBefore at h
      omega
    have hfl : timeFrac t1 < timeFrac t2 := by
      unfold timeFrac
      have hc : (3600 * t1.hour + 60 * t1.minute + t1.second : ℤ) <
          (3600 * t2.hour + 60 * t2.minute + t2.second : ℤ) := htl
      have hcq : ((3600 * t1.hour + 60 * t1.minute + t1.second : ℤ) : ℚ) <
          ((3600 * t2.hour + 60 * t2.minute + t2.second : ℤ) : ℚ) := by exact_mod_cast hc
      push_cast at hcq
      linarith
    unfold dateToJulianDay
    rw [hjeq]
    linarith

/-- Witness for the amended claim C3 at two concrete valid instants one day
apart. -/
theorem dateToJulianDay_strictMono_of_secBefore_witness :
    Valid (⟨2000, 0, 1, 12, 0, 0, 0⟩ : Instant) ∧
    Valid (⟨2000, 0, 2, 12, 0, 0, 0⟩ : Instant) ∧
    secBefore ⟨2000, 0, 1, 12, 0, 0, 0⟩ ⟨2000, 0, 2, 12, 0, 0, 0⟩ ∧
    dateToJulianDay ⟨2000, 0, 1, 12, 0, 0, 0⟩ < dateToJulianDay ⟨2000, 0, 2, 12, 0, 0, 0⟩ :=
  ⟨by decide, by decide, by decide,
    dateToJulianDay_strictMono_of_secBefore _ _ (by decide) (by decide) (by decide)⟩

/-- Claim C4, counterexample: at the valid instant 1999-06-01T00:00:00Z
(before the J2000 epoch) the JavaScript `%` produces a negative `gmst`, so
`calculateEarthRotation` returns a negative angle, outside `[0, 2π)`. -/
theorem calculateEarthRotation_negative_before_J2000 :
    Valid (⟨1999, 5, 1, 0, 0, 0, 0⟩ : Instant) ∧
    calculateEarthRotation ⟨1999, 5, 1, 0, 0, 0, 0⟩ ∉ Set.Ico (0:ℝ) (2 * Real.pi) := by
  refine ⟨by decide, ?_⟩
  have hq : (gmst ⟨1999, 5, 1, 0, 0, 0, 0⟩ * 15 : ℚ) < 0 := by
    have := gmst_1999_06_01_neg
    nlinarith
  have hr : ((gmst ⟨1999, 5, 1, 0, 0, 0, 0⟩ * 15 : ℚ) : ℝ) < 0 := by exact_mod_cast hq
  have hrot : calculateEarthRotation ⟨1999, 5, 1, 0, 0, 0, 0⟩ < 0 := by
    unfold calculateEarthRotation
    have hpi := Real.pi_pos
    have hm : ((gmst ⟨1999, 5, 1, 0, 0, 0, 0⟩ * 15 : ℚ) : ℝ) * Real.pi < 0 :=
      mul_neg_of_neg_of_pos hr hpi
    linarith [div_neg_of_neg_of_pos hm (by norm_num : (0:ℝ) < 180)]
  intro hmem
  exact absurd hmem.1 (not_le.2 hrot)

/-- Claim C4 (amended): whenever the linear GMST expression is nonnegative —
in particular for every instant at or after the J2000 epoch — the rotation
angle returned by `calculateEarthRotation` lies in `[0, 2π)`. -/
theorem calculateEarthRotation_mem_Ico_of_nonneg (t : Instant)
    (h : 0 ≤ 18.697374558 + 24.06570982441908 * daysSinceJ2000 t) :
    calculateEarthRotation t ∈ Set.Ico (0:ℝ) (2 * Real.pi) := by
  obtain ⟨hg0, hg24⟩ := jsRem24_bounds _ h
  unfold calculateEarthRotation
  have hq0 : (0:ℚ) ≤ gmst t * 15 := by unfold gmst; nlinarith
  have hq360 : gmst t * 15 < 360 := by unfold gmst; nlinarith
  have hr0 : (0:ℝ) ≤ ((gmst t * 15 : ℚ) : ℝ) := by exact_mod_cast hq0
  have hr360 : ((gmst t * 15 : ℚ) : ℝ) < 360 := by exact_mod_cast hq360
  constructor
  · positivity
  · rw [div_lt_iff₀ (by norm_num : (0:ℝ) < 180)]
    nlinarith [Real.pi_pos]

/-- Witness for the amended claim C4 at the J2000 epoch itself. -/
theorem calculateEarthRotation_mem_Ico_of_nonneg_witness :
    (0:ℚ) ≤ 18.697374558 + 24.06570982441908 * daysSinceJ2000 J2000 ∧
    calculateEarthRotation J2000 ∈ Set.Ico (0:ℝ) (2 * Real.pi) := by
  have h : (0:ℚ) ≤ 18.697374558 + 24.06570982441908 * daysSinceJ2000 J2000 := by
    unfold daysSinceJ2000
    rw [sub_self]
    norm_num
  exact ⟨h, calculateEarthRotation_mem_Ico_of_nonneg J2000 h⟩

/-- Claim C5, counterexample: `setViewerCoordinates(100, 200)` stores
latitude `100` and longitude `200` unchanged, although `100 ∉ [-90, 90]` and
`200 ∉ (-180, 180]` — no clamping or normalization happens. -/
theorem setViewerCoordinates_out_of_range_stored :
    (setViewerCoordinates initialAstroConfig 100 200).viewerLatitude = 100 ∧
    (100:ℝ) ∉ Set.Icc (-90:ℝ) 90 ∧
    (setViewerCoordinates initialAstroConfig 100 200).viewerLongitude = 200 ∧
    (200:ℝ) ∉ Set.Ioc (-180:ℝ) 180 := by
  refine ⟨rfl, ?_, rfl, ?_⟩ <;> norm_num

/-- Claim C5 (amended): `setViewerCoordinates` rejects nothing and stores
both coordinates verbatim (no clamping), so subsequent computations use the
raw supplied values. -/
theorem setViewerCoordinates_stores_verbatim (st : AstroConfig) (lat lon : ℝ) :
    (setViewerCoordinates st lat lon).viewerLatitude = lat ∧
    (setViewerCoordinates st lat lon).viewerLongitude = lon := ⟨rfl, rfl⟩

/-- Claim C6 (confirmed): when the observer coincides with the star, the
viewer-to-star direction is the zero vector, `normalize` (with its
`length() || 1` guard) keeps it zero, and `calculateSolarAngles` returns
elevation `0` — a defined default rather than NaN (the embedding is a total
function, so no exception is possible). -/
theorem calculateSolarAngles_coincident_elevation_zero (p : Vec3) :
    (calculateSolarAngles p p).elevation = 0 := by
  have hsub : Vec3.sub p p = Vec3.zero := by
    cases p
    simp [Vec3.sub, Vec3.zero]
  have hlen : Vec3.length Vec3.zero = 0 := (Vec3.length_eq_zero_iff _).2 rfl
  have hnorm : Vec3.normalize Vec3.zero = Vec3.zero := by
    unfold Vec3.normalize
    rw [if_pos hlen]
    simp [Vec3.smul, Vec3.zero]
  simp only [calculateSolarAngles, hsub, hnorm]
  simp [Vec3.zero, Real.arcsin_zero]

/-- Claim C7, counterexample: switching `sampleScene` from the geocentric to
the heliocentric frame gives camera target `(0,0,0)`, while the star's
position in the previous (geocentric) frame's coordinates is `(80,0,0)` —
the focal point is not the new anchor's position in the previous frame's
coordinates. -/
theorem setCoordinateSystem_target_ne_previous_frame_anchor :
    (setCoordinateSystem sampleScene Frame.heliocentric).cameraTarget ≠
      (calculateCoordinateSystemPositions Frame.geocentric sampleScene.positions).sun ∧
    (calculateCoordinateSystemPositions Frame.geocentric sampleScene.positions).sun =
      ⟨80, 0, 0⟩ := by
  have hsun : (calculateCoordinateSystemPositions Frame.geocentric sampleScene.positions).sun =
      ⟨80, 0, 0⟩ := by
    simp only [sampleScene, sampleEphemeris, calculateCoordinateSystemPositions, sub_zero_vec,
      normalize_300]
    simp [Vec3.add, Vec3.smul, Vec3.zero]
  refine ⟨?_, hsun⟩
  rw [hsun]
  have hz : (setCoordinateSystem sampleScene Frame.heliocentric).cameraTarget = Vec3.zero := rfl
  rw [hz]
  intro h
  have hx := congrArg Vec3.x h
  simp [Vec3.zero] at hx

/-- Claim C7 (amended): after every frame switch with an unchanged physical
ephemeris, the camera target equals the new anchor body's position in the
NEW frame's coordinates, which is always the origin `(0,0,0)`. -/
theorem setCoordinateSystem_cameraTarget_is_new_origin (st : SceneState) (f : Frame) :
    (setCoordinateSystem st f).cameraTarget =
      (calculateCoordinateSystemPositions f st.positions).ofBody (anchorBody f) ∧
    (setCoordinateSystem st f).cameraTarget = Vec3.zero := by
  cases f <;> exact ⟨rfl, rfl⟩

/-- Claim C8 (confirmed): for each frame and every ephemeris with pairwise
distinct body positions, a projected body position is the zero vector
exactly when the body is the frame's anchor (so exactly one of the three is
at the origin; in particular, in the star-centered frame the star projects
to the origin and the central body does not). -/
theorem coordinateSystemPositions_zero_iff_anchor (f : Frame) (p : EphemerisPositions)
    (hse : p.sun ≠ p.earth) (hme : p.moon ≠ p.earth) (hsm : p.sun ≠ p.moon) :
    ∀ b : Body,
      (calculateCoordinateSystemPositions f p).ofBody b = Vec3.zero ↔ b = anchorBody f := by
  have hSE : Vec3.sub p.sun p.earth ≠ Vec3.zero := Vec3.sub_ne_zero_of_ne hse
  have hME : Vec3.sub p.moon p.earth ≠ Vec3.zero := Vec3.sub_ne_zero_of_ne hme
  have hES : Vec3.sub p.earth p.sun ≠ Vec3.zero := Vec3.sub_ne_zero_of_ne (Ne.symm hse)
  have hEM : Vec3.sub p.earth p.moon ≠ Vec3.zero := Vec3.sub_ne_zero_of_ne (Ne.symm hme)
  have hSM : Vec3.sub p.sun p.moon ≠ Vec3.zero := Vec3.sub_ne_zero_of_ne hsm
  intro b
  cases f with
  | geocentric =>
    cases b with
    | earth => simp [calculateCoordinateSystemPositions, ProjectedPositions.ofBody, anchorBody]
    | moon =>
      have hne : Vec3.add Vec3.zero (Vec3.smul 30 (Vec3.normalize (Vec3.sub p.moon p.earth))) ≠
          Vec3.zero := by
        rw [Vec3.zero_add_vec]
        exact scaled_normalize_ne_zero 30 (by norm_num) hME
      simp [calculateCoordinateSystemPositions, ProjectedPositions.ofBody, anchorBody, hne]
    | sun =>
      have hne : Vec3.add Vec3.zero (Vec3.smul 80 (Vec3.normalize (Vec3.sub p.sun p.earth))) ≠
          Vec3.zero := by
        rw [Vec3.zero_add_vec]
        exact scaled_normalize_ne_zero 80 (by norm_num) hSE
      simp [calculateCoordinateSystemPositions, ProjectedPositions.ofBody, anchorBody, hne]
  | heliocentric =>
    cases b with
    | sun => simp [calculateCoordinateSystemPositions, ProjectedPositions.ofBody, anchorBody]
    | earth =>
      have hne : Vec3.add Vec3.zero (Vec3.smul 60 (Vec3.normalize (Vec3.sub p.earth p.sun))) ≠
          Vec3.zero := by
        rw [Vec3.zero_add_vec]
        exact scaled_normalize_ne_zero 60 (by norm_num) hES
      simp [calculateCoordinateSystemPositions, ProjectedPositions.ofBody, anchorBody, hne]
    | moon =>
      have hne : Vec3.add
          (Vec3.add Vec3.zero (Vec3.smul 60 (Vec3.normalize (Vec3.sub p.earth p.sun))))
          (Vec3.rotX (degToRad 5.14)
            (Vec3.smul 15 (Vec3.normalize (Vec3.sub p.moon p.earth)))) ≠ Vec3.zero := by
        intro h
        have hlen := Vec3.length_eq_of_add_eq_zero h
        rw [Vec3.zero_add_vec, Vec3.length_rotX, Vec3.length_smul_normalize hES 60,
          Vec3.length_smul_normalize hME 15] at hlen
        norm_num at hlen
      simp [calculateCoordinateSystemPositions, ProjectedPositions.ofBody, anchorBody, hne]
  | selenocentric =>
    cases b with
    | moon => simp [calculateCoordinateSystemPositions, ProjectedPositions.ofBody, anchorBody]
    | earth =>
      have hne : Vec3.add Vec3.zero (Vec3.smul 25 (Vec3.normalize (Vec3.sub p.earth p.moon))) ≠
          Vec3.zero := by
        rw [Vec3.zero_add_vec]
        exact scaled_normalize_ne_zero 25 (by norm_num) hEM
      simp [calculateCoordinateSystemPositions, ProjectedPositions.ofBody, anchorBody, hne]
    | sun =>
      have hne : Vec3.add Vec3.zero (Vec3.smul 80 (Vec3.normalize (Vec3.sub p.sun p.moon))) ≠
          Vec3.zero := by
        rw [Vec3.zero_add_vec]
        exact scaled_normalize_ne_zero 80 (by norm_num) hSM
      simp [calculateCoordinateSystemPositions, ProjectedPositions.ofBody, anchorBody, hne]

/-- Witness for claim C8 at a concrete distinct-position ephemeris in the
star-centered frame. -/
theorem coordinateSystemPositions_zero_iff_anchor_witness :
    (sampleEphemeris.sun ≠ sampleEphemeris.earth ∧
     sampleEphemeris.moon ≠ sampleEphemeris.earth ∧
     sampleEphemeris.sun ≠ sampleEphemeris.moon) ∧
    ∀ b : Body,
      (calculateCoordinateSystemPositions Frame.heliocentric sampleEphemeris).ofBody b =
        Vec3.zero ↔ b = anchorBody Frame.heliocentric := by
  have h1 : sampleEphemeris.sun ≠ sampleEphemeris.earth := by
    intro h
    have hx := congrArg Vec3.x h
    simp [sampleEphemeris] at hx
  have h2 : sampleEphemeris.moon ≠ sampleEphemeris.earth := by
    intro h
    have hx := congrArg Vec3.z h
    simp [sampleEphemeris] at hx
  have h3 : sampleEphemeris.sun ≠ sampleEphemeris.moon := by
    intro h
    have hx := congrArg Vec3.x h
    simp [sampleEphemeris] at hx
  exact ⟨⟨h1, h2, h3⟩,
    coordinateSystemPositions_zero_iff_anchor Frame.heliocentric sampleEphemeris h1 h2 h3⟩

/-- Claim C9 (confirmed): for every input triple the illumination returned
by `calculateMoonPhase` lies in `[0, 1]` and agrees with
`(1 + cos(angleDeg·π/180))/2` computed from the returned angle (the
agreement is exact in the real-number embedding, hence within `1e-9`). -/
theorem calculateMoonPhase_illumination_consistent (s e m : Vec3) :
    (calculateMoonPhase s e m).illumination ∈ Set.Icc (0:ℝ) 1 ∧
    |(calculateMoonPhase s e m).illumination -
      (1 + Real.cos ((calculateMoonPhase s e m).angle * Real.pi / 180)) / 2| ≤ 1e-9 := by
  have hang : (calculateMoonPhase s e m).angle * Real.pi / 180 =
      Real.arccos (Vec3.dot (Vec3.normalize (Vec3.sub s e)) (Vec3.normalize (Vec3.sub m e))) := by
    simp only [calculateMoonPhase]
    field_simp
  have hill : (calculateMoonPhase s e m).illumination =
      (1 + Real.cos (Real.arccos
        (Vec3.dot (Vec3.normalize (Vec3.sub s e)) (Vec3.normalize (Vec3.sub m e))))) / 2 := by
    simp only [calculateMoonPhase]
  constructor
  · rw [hill]
    have h1 := Real.neg_one_le_cos (Real.arccos
      (Vec3.dot (Vec3.normalize (Vec3.sub s e)) (Vec3.normalize (Vec3.sub m e))))
    have h2 := Real.cos_le_one (Real.arccos
      (Vec3.dot (Vec3.normalize (Vec3.sub s e)) (Vec3.normalize (Vec3.sub m e))))
    constructor <;> linarith
  · rw [hang, hill]
    norm_num

/-- Claim C10 (confirmed): `checkEclipses` flags a solar eclipse exactly when
the dot product of the normalized star−center and satellite−center
directions exceeds `0.99`, and a lunar eclipse exactly when the dot product
of the normalized star−satellite and center−satellite directions exceeds
`0.99`; a configuration with alignment score exactly `0.999` flags true and
one with score `0.5` flags false. -/
theorem checkEclipses_flag_iff_alignment (s e m : Vec3) :
    ((checkEclipses s e m).solarAlignment =
        Vec3.dot (Vec3.normalize (Vec3.sub s e)) (Vec3.normalize (Vec3.sub m e)) ∧
      ((checkEclipses s e m).solar ↔
        Vec3.dot (Vec3.normalize (Vec3.sub s e)) (Vec3.normalize (Vec3.sub m e)) > 0.99) ∧
      (checkEclipses s e m).lunarAlignment =
        Vec3.dot (Vec3.normalize (Vec3.sub s m)) (Vec3.normalize (Vec3.sub e m)) ∧
      ((checkEclipses s e m).lunar ↔
        Vec3.dot (Vec3.normalize (Vec3.sub s m)) (Vec3.normalize (Vec3.sub e m)) > 0.99)) ∧
    ((checkEclipses ⟨1, 0, 0⟩ ⟨0, 0, 0⟩
        ⟨0.999, Real.sqrt (1 - 0.999 ^ 2), 0⟩).solarAlignment = 0.999 ∧
      (checkEclipses ⟨1, 0, 0⟩ ⟨0, 0, 0⟩ ⟨0.999, Real.sqrt (1 - 0.999 ^ 2), 0⟩).solar) ∧
    ((checkEclipses ⟨1, 0, 0⟩ ⟨0, 0, 0⟩
        ⟨0.5, Real.sqrt (1 - 0.5 ^ 2), 0⟩).solarAlignment = 0.5 ∧
      ¬ (checkEclipses ⟨1, 0, 0⟩ ⟨0, 0, 0⟩ ⟨0.5, Real.sqrt (1 - 0.5 ^ 2), 0⟩).solar) := by
  have h1 : Vec3.normalize ⟨1, 0, 0⟩ = ⟨1, 0, 0⟩ := Vec3.normalize_of_length_one length_unit_x
  have lenA : Vec3.length ⟨0.999, Real.sqrt (1 - 0.999 ^ 2), 0⟩ = 1 := by
    unfold Vec3.length Vec3.dot
    simp only
    rw [Real.mul_self_sqrt (by norm_num)]
    norm_num
  have lenB : Vec3.length ⟨0.5, Real.sqrt (1 - 0.5 ^ 2), 0⟩ = 1 := by
    unfold Vec3.length Vec3.dot
    simp only
    rw [Real.mul_self_sqrt (by norm_num)]
    norm_num
  have hA : Vec3.normalize ⟨0.999, Real.sqrt (1 - 0.999 ^ 2), 0⟩ =
      ⟨0.999, Real.sqrt (1 - 0.999 ^ 2), 0⟩ := Vec3.normalize_of_length_one lenA
  have hB : Vec3.normalize ⟨0.5, Real.sqrt (1 - 0.5 ^ 2), 0⟩ =
      ⟨0.5, Real.sqrt (1 - 0.5 ^ 2), 0⟩ := Vec3.normalize_of_length_one lenB
  have hdA : Vec3.dot ⟨1, 0, 0⟩ ⟨0.999, Real.sqrt (1 - 0.999 ^ 2), 0⟩ = 0.999 := by
    unfold Vec3.dot
    norm_num
  have hdB : Vec3.dot ⟨1, 0, 0⟩ ⟨0.5, Real.sqrt (1 - 0.5 ^ 2), 0⟩ = 0.5 := by
    unfold Vec3.dot
    norm_num
  refine ⟨?_, ⟨?_, ?_⟩, ⟨?_, ?_⟩⟩
  · simp [checkEclipses]
  · simp only [checkEclipses, sub_zero_vec, h1, hA, hdA]
  · simp only [checkEclipses, sub_zero_vec, h1, hA, hdA]
    norm_num
  · simp only [checkEclipses, sub_zero_vec, h1, hB, hdB]
  · simp only [checkEclipses, sub_zero_vec, h1, hB, hdB]
    norm_num

end Moon
